import Mathlib

/-!
Shallow embedding of the GitHub webhook listener (src/index.js).

The program is a single Express handler plus four helpers:
`verifySignature`, `getIssueDetails`, `readChecklist`, `updateIssueBody`.
External effects (the HMAC primitive from the crypto library, the axios
GraphQL POST, the axios REST GET and PATCH, the checklist file read) are
modelled as oracle fields of a `World` record; the handler is a pure
function from the configuration, the world and the request to an HTTP
status, a response message and the trace of outbound API calls it makes.
-/

namespace WebhookListener

/-- JavaScript string interpolation of a possibly-undefined value:
a missing value prints as the text "undefined". -/
def jsStr (o : Option String) : String := o.getD "undefined"

/-- Worker for `jsSplit`: scans the character list, cutting at each
separator, accumulating the current piece in reverse. -/
def jsSplitAux (sep : Char) : List Char → List Char → List String
  | [], acc => [String.mk acc.reverse]
  | c :: cs, acc =>
    if c = sep then String.mk acc.reverse :: jsSplitAux sep cs []
    else jsSplitAux sep cs (c :: acc)

/-- Embedding of JavaScript `s.split(sep)` for a one-character separator:
splits at every occurrence, keeping empty pieces, and yields `[""]` on the
empty string. -/
def jsSplit (s : String) (sep : Char) : List String := jsSplitAux sep s.data []

/-- Worker for `includes`: does `pat` occur as a prefix of some suffix. -/
def includesAux (pat : List Char) : List Char → Bool
  | [] => List.isPrefixOf pat []
  | c :: cs => (List.isPrefixOf pat (c :: cs)) || includesAux pat cs

/-- Embedding of JavaScript `s.includes(pat)`: substring occurrence. -/
def includes (s pat : String) : Bool := includesAux pat.data s.data

/-- Environment configuration read once at startup:
GITHUB_WEBHOOK_SECRET and PROJECT_NODE_ID (the GitHub token only flows
into outbound auth headers, which the oracles absorb). -/
structure Config where
  webhookSecret : String
  projectNodeId : String
deriving DecidableEq

/-- The `projects_v2_item` object of the webhook payload; each field may be
absent (JavaScript `undefined`). -/
structure ProjectsV2Item where
  project_node_id : Option String
  content_node_id : Option String
deriving DecidableEq

/-- The fields of the parsed webhook payload that the handler consumes. -/
structure Payload where
  action : Option String
  projects_v2_item : Option ProjectsV2Item
deriving DecidableEq

/-- One inbound POST /webhook request: the x-hub-signature-256 header (absent
allowed), the serialized body `JSON.stringify(req.body)`, and the parsed
payload fields. -/
structure Request where
  sigHeader : Option String
  rawBody : String
  payload : Payload

/-- The node object inside a successful GraphQL response, narrowed to Issue:
`url` and a nullable `body`. -/
structure IssueNode where
  url : String
  body : Option String
deriving DecidableEq

/-- Outcome of the GraphQL POST: the axios call throws (transport error), or
a response arrives carrying an optional `errors` list and an optional
matching node. -/
inductive GraphQLResult where
  | transportError : GraphQLResult
  | response (errors : Option (List String)) (node : Option IssueNode) : GraphQLResult
deriving DecidableEq

/-- The value `getIssueDetails` hands back to the handler. -/
structure IssueDetails where
  url : String
  body : Option String
deriving DecidableEq

/-- First line and full content of the checklist file. -/
structure Checklist where
  firstLine : String
  fullContent : String
deriving DecidableEq

/-- The external world one request runs against: the crypto HMAC-SHA256 hex
digest primitive (key, message), the GraphQL response, the REST GET response
per URL (`Except.error` is a thrown axios error, `Except.ok` carries the
nullable issue body), the REST PATCH outcome per URL and body, and the
checklist file content (`none` when `readFileSync` throws). -/
structure World where
  hmacHex : String → String → String
  graphql : GraphQLResult
  restGet : String → Except Unit (Option String)
  restPatch : String → String → Except Unit Unit
  checklistFile : Option String

/-- One outbound API call, as the handler performs them. -/
inductive ApiCall where
  | graphqlPost (contentNodeId : String)
  | restGet (url : String)
  | restPatch (url : String) (body : String)
deriving DecidableEq

/-- Is this call a REST PATCH. -/
def ApiCall.isPatch : ApiCall → Bool
  | .restPatch _ _ => true
  | _ => false

/-- The URL an outbound call is directed at. -/
def ApiCall.url : ApiCall → String
  | .graphqlPost _ => "https://api.github.com/graphql"
  | .restGet u => u
  | .restPatch u _ => u

/-- Embedding of `verifySignature(req)` (src/index.js lines 31-36): compare
the header with `sha256=` followed by the hex HMAC-SHA256 of
`JSON.stringify(req.body)` under the secret. An absent header is
`undefined`, which the strict equality test renders false. -/
def verifySignature (secret : String) (hmacHex : String → String → String)
    (sigHeader : Option String) (rawBody : String) : Bool :=
  let digest := "sha256=" ++ hmacHex secret rawBody
  sigHeader == some digest

/-- Embedding of `getIssueDetails` (lines 39-77): a thrown request or a
truthy `errors` field yields null; otherwise the node, when present, yields
its url and body. -/
def getIssueDetails (r : GraphQLResult) : Option IssueDetails :=
  match r with
  | .transportError => none
  | .response errors node =>
    if errors.isSome then none
    else node.map (fun n => { url := n.url, body := n.body })

/-- Embedding of `readChecklist` (lines 80-92): on a successful file read,
the first line of the split content plus the whole content; on a thrown
read, null. -/
def readChecklist (file : Option String) : Option Checklist :=
  match file with
  | none => none
  | some content =>
    some { firstLine := jsStr ((jsSplit content '\n')[0]?), fullContent := content }

/-- The REST issue URL `updateIssueBody` (lines 97-103) builds from
slash-separated pieces 3, 4 and 6 of the incoming issue URL; an
out-of-range piece interpolates as the text "undefined". -/
def restUrlOf (issueUrl : String) : String :=
  let parts := jsSplit issueUrl '/'
  "https://api.github.com/repos/" ++ jsStr parts[3]? ++ "/" ++ jsStr parts[4]?
    ++ "/issues/" ++ jsStr parts[6]?

/-- Embedding of `updateIssueBody` (lines 95-141), returning the trace of
REST calls it makes. The whole body after URL extraction sits in a
try/catch, so a thrown GET ends the trace there, and a thrown PATCH is
swallowed after the call was made; when the checklist read failed or the
existing body already contains the first line, no PATCH happens. -/
def updateIssueBody (w : World) (issueUrl : String) : List ApiCall :=
  let url := restUrlOf issueUrl
  match w.restGet url with
  | .error _ => [ApiCall.restGet url]
  | .ok bodyField =>
    let existingBody := bodyField.getD ""
    match readChecklist w.checklistFile with
    | some checklist =>
      if !(includes existingBody checklist.firstLine) then
        let updatedBody := existingBody ++ "\n\n" ++ checklist.fullContent
        let _ := w.restPatch url updatedBody
        [ApiCall.restGet url, ApiCall.restPatch url updatedBody]
      else [ApiCall.restGet url]
    | none => [ApiCall.restGet url]

/-- What one request observably produces: the HTTP status, the response
text, and the outbound API calls in order. -/
structure HandlerResult where
  status : Nat
  message : String
  calls : List ApiCall
deriving DecidableEq

/-- Embedding of the POST /webhook handler (lines 149-193): signature gate,
project filter, action filter, then the `if (contentNodeId)` truthiness
test — under which an absent id and the empty string alike skip the
lookup — then GraphQL resolution and the conditional issue update; the
final response is always 200 once the signature passed. -/
def webhookPost (cfg : Config) (w : World) (req : Request) : HandlerResult :=
  if !(verifySignature cfg.webhookSecret w.hmacHex req.sigHeader req.rawBody) then
    { status := 403, message := "Signature mismatch!", calls := [] }
  else
    let projectNodeId := req.payload.projects_v2_item.bind (fun i => i.project_node_id)
    if projectNodeId == some cfg.projectNodeId then
      let contentNodeId := req.payload.projects_v2_item.bind (fun i => i.content_node_id)
      let action := req.payload.action
      if action == some "created" then
        match contentNodeId with
        | some cid =>
          if !(cid == "") then
            let issueDetails := getIssueDetails w.graphql
            match issueDetails with
            | some d =>
              if d.url ≠ "" then
                { status := 200, message := "Webhook received and processed!",
                  calls := ApiCall.graphqlPost cid :: updateIssueBody w d.url }
              else
                { status := 200, message := "Webhook received and processed!",
                  calls := [ApiCall.graphqlPost cid] }
            | none =>
              { status := 200, message := "Webhook received and processed!",
                calls := [ApiCall.graphqlPost cid] }
          else
            { status := 200, message := "Webhook received and processed!", calls := [] }
        | none =>
          { status := 200, message := "Webhook received and processed!", calls := [] }
      else
        { status := 200, message := "No action taken for non-created action.", calls := [] }
    else
      { status := 200, message := "No action taken.", calls := [] }

/-! Helper lemmas -/

theorem includesAux_nil (l : List Char) : includesAux [] l = true := by
  cases l <;> simp [includesAux, List.isPrefixOf]

theorem includes_empty (s : String) : includes s "" = true := by
  simp [includes, includesAux_nil]

theorem jsSplitAux_no_sep (sep : Char) (l acc : List Char) (h : sep ∉ l) :
    jsSplitAux sep l acc = [String.mk (acc.reverse ++ l)] := by
  induction l generalizing acc with
  | nil => simp [jsSplitAux]
  | cons c cs ih =>
    simp only [List.mem_cons, not_or] at h
    simp [jsSplitAux, Ne.symm h.1, ih acc.reverse h.2]
    rw [ih (c :: acc) h.2]
    simp

theorem jsSplitAux_append (sep : Char) (l1 l2 acc : List Char) (h : sep ∉ l1) :
    jsSplitAux sep (l1 ++ sep :: l2) acc
      = String.mk (acc.reverse ++ l1) :: jsSplitAux sep l2 [] := by
  induction l1 generalizing acc with
  | nil => simp [jsSplitAux]
  | cons c cs ih =>
    simp only [List.mem_cons, not_or] at h
    rw [List.cons_append]
    simp only [jsSplitAux, if_neg (Ne.symm h.1)]
    rw [ih (c :: acc) h.2]
    simp

theorem mk_data (s : String) : String.mk s.data = s := rfl

/-- Splitting the web URL of an issue at every slash yields the pieces at
the positions the source indexes: owner at 3, repo at 4, number at 6. -/
theorem jsSplit_web (owner repo num : String)
    (ho : ('/' : Char) ∉ owner.data) (hr : ('/' : Char) ∉ repo.data)
    (hn : ('/' : Char) ∉ num.data) :
    jsSplit ("https://github.com/" ++ owner ++ "/" ++ repo ++ "/issues/" ++ num) '/'
      = ["https:", "", "github.com", owner, repo, "issues", num] := by
  have h1 : ("https://github.com/" : String).data
      = ['h','t','t','p','s',':','/','/','g','i','t','h','u','b','.','c','o','m','/'] := rfl
  have h2 : ("/" : String).data = ['/'] := rfl
  have h3 : ("/issues/" : String).data = ['/','i','s','s','u','e','s','/'] := rfl
  have h0 : ("https://github.com/" ++ owner ++ "/" ++ repo ++ "/issues/" ++ num).data
      = ['h','t','t','p','s',':'] ++ '/' :: (([] : List Char)
        ++ '/' :: (['g','i','t','h','u','b','.','c','o','m']
        ++ '/' :: (owner.data ++ '/' :: (repo.data
        ++ '/' :: (['i','s','s','u','e','s'] ++ '/' :: num.data))))) := by
    simp [String.data_append, h1, h2, h3]
  unfold jsSplit
  rw [h0]
  rw [jsSplitAux_append _ _ _ _ (by decide)]
  rw [jsSplitAux_append _ _ _ _ (by decide)]
  rw [jsSplitAux_append _ _ _ _ (by decide)]
  rw [jsSplitAux_append _ _ _ _ ho]
  rw [jsSplitAux_append _ _ _ _ hr]
  rw [jsSplitAux_append _ _ _ _ (by decide)]
  rw [jsSplitAux_no_sep _ _ _ hn]
  simp [mk_data]

/-- On a web-shaped issue URL with slash-free owner, repo and number, the
REST URL the source builds is the API URL for those three values. -/
theorem restUrlOf_web (owner repo num : String)
    (ho : ('/' : Char) ∉ owner.data) (hr : ('/' : Char) ∉ repo.data)
    (hn : ('/' : Char) ∉ num.data) :
    restUrlOf ("https://github.com/" ++ owner ++ "/" ++ repo ++ "/issues/" ++ num)
      = "https://api.github.com/repos/" ++ owner ++ "/" ++ repo ++ "/issues/" ++ num := by
  simp [restUrlOf, jsSplit_web owner repo num ho hr hn, jsStr]

theorem updateIssueBody_calls_url (w : World) (issueUrl : String) :
    ∀ c ∈ updateIssueBody w issueUrl, c.url = restUrlOf issueUrl := by
  rcases hg : w.restGet (restUrlOf issueUrl) with e | bodyField
  · simp [updateIssueBody, hg, ApiCall.url]
  · rcases hcl : readChecklist w.checklistFile with _ | checklist
    · simp [updateIssueBody, hg, hcl, ApiCall.url]
    · by_cases hinc : includes (bodyField.getD "") checklist.firstLine = false
      · simp [updateIssueBody, hg, hcl, hinc, ApiCall.url]
      · simp [updateIssueBody, hg, hcl, hinc, ApiCall.url]

/-! Claim theorems -/

/-- C5: verifySignature returns true if and only if the x-hub-signature-256
header equals, byte for byte, the string "sha256=" followed by the
hex-encoded HMAC-SHA256 digest, keyed by the configured secret, of the
serialized request body; the check is a plain equality comparison. -/
theorem verifySignature_spec (secret : String) (hm : String → String → String)
    (sigHeader : Option String) (rawBody : String) :
    verifySignature secret hm sigHeader rawBody = true ↔
      sigHeader = some ("sha256=" ++ hm secret rawBody) := by
  simp [verifySignature]

/-- C1: when the x-hub-signature-256 header differs from "sha256=" followed
by the hex HMAC-SHA256 of the serialized body under the configured secret,
the handler responds 403 with no outbound API call at all. -/
theorem webhookPost_signature_mismatch (cfg : Config) (w : World) (req : Request)
    (h : req.sigHeader ≠ some ("sha256=" ++ w.hmacHex cfg.webhookSecret req.rawBody)) :
    webhookPost cfg w req
      = { status := 403, message := "Signature mismatch!", calls := [] } := by
  have hv : verifySignature cfg.webhookSecret w.hmacHex req.sigHeader req.rawBody = false := by
    simp only [verifySignature]
    exact beq_eq_false_iff_ne.mpr h
  simp [webhookPost, hv]

/-- C1 witness: a concrete request carrying a wrong signature header is
rejected with 403 and an empty call trace. -/
theorem webhookPost_signature_mismatch_witness :
    webhookPost { webhookSecret := "s3cret", projectNodeId := "PVT_1" }
      { hmacHex := fun _ _ => "00ff", graphql := GraphQLResult.transportError,
        restGet := fun _ => Except.error (), restPatch := fun _ _ => Except.ok (),
        checklistFile := none }
      { sigHeader := some "sha256=bad", rawBody := "\x7b\x7d",
        payload := { action := some "created", projects_v2_item := none } }
      = { status := 403, message := "Signature mismatch!", calls := [] } :=
  webhookPost_signature_mismatch _ _ _ (by decide)

/-- C10: a request with no x-hub-signature-256 header at all can never pass
verification (an absent header never equals the computed digest string), so
the handler responds 403 and performs no outbound API call. -/
theorem webhookPost_absent_header_403 (cfg : Config) (w : World)
    (rawBody : String) (payload : Payload) :
    verifySignature cfg.webhookSecret w.hmacHex none rawBody = false ∧
    webhookPost cfg w { sigHeader := none, rawBody := rawBody, payload := payload }
      = { status := 403, message := "Signature mismatch!", calls := [] } := by
  constructor
  · rfl
  · simp [webhookPost, verifySignature]

/-- C6: for a signature-verified request, a payload whose
projects_v2_item.project_node_id is absent or differs from the configured
target gets response 200 with no outbound call — with the project-mismatch
message, regardless of the action, showing the project check runs first;
and with a matching project, a payload whose action is not the literal
"created" gets response 200 with no outbound call. -/
theorem webhookPost_filter_skips (cfg : Config) (w : World) (req : Request) :
    (verifySignature cfg.webhookSecret w.hmacHex req.sigHeader req.rawBody = true →
      req.payload.projects_v2_item.bind (fun i => i.project_node_id)
          ≠ some cfg.projectNodeId →
      webhookPost cfg w req
        = { status := 200, message := "No action taken.", calls := [] }) ∧
    (verifySignature cfg.webhookSecret w.hmacHex req.sigHeader req.rawBody = true →
      req.payload.projects_v2_item.bind (fun i => i.project_node_id)
          = some cfg.projectNodeId →
      req.payload.action ≠ some "created" →
      webhookPost cfg w req
        = { status := 200, message := "No action taken for non-created action.",
            calls := [] }) := by
  constructor
  · intro hv hp
    simp [webhookPost, hv, beq_eq_false_iff_ne.mpr hp]
  · intro hv hp ha
    simp [webhookPost, hv, hp, beq_eq_false_iff_ne.mpr ha]

/-- C6 witness: with a verified signature, a request whose project differs
and whose action is also not "created" is skipped with the project-mismatch
message (the project check fires first), and a matching-project request
with action "edited" is skipped with the action message. -/
theorem webhookPost_filter_skips_witness :
    webhookPost { webhookSecret := "s", projectNodeId := "PVT_1" }
      { hmacHex := fun _ _ => "aa", graphql := GraphQLResult.transportError,
        restGet := fun _ => Except.error (), restPatch := fun _ _ => Except.ok (),
        checklistFile := none }
      { sigHeader := some "sha256=aa", rawBody := "\x7b\x7d",
        payload :=
          { action := some "edited",
            projects_v2_item :=
              some { project_node_id := some "PVT_other",
                     content_node_id := some "I_1" } } }
      = { status := 200, message := "No action taken.", calls := [] } ∧
    webhookPost { webhookSecret := "s", projectNodeId := "PVT_1" }
      { hmacHex := fun _ _ => "aa", graphql := GraphQLResult.transportError,
        restGet := fun _ => Except.error (), restPatch := fun _ _ => Except.ok (),
        checklistFile := none }
      { sigHeader := some "sha256=aa", rawBody := "\x7b\x7d",
        payload :=
          { action := some "edited",
            projects_v2_item :=
              some { project_node_id := some "PVT_1",
                     content_node_id := some "I_1" } } }
      = { status := 200, message := "No action taken for non-created action.",
          calls := [] } :=
  ⟨(webhookPost_filter_skips _ _ _).1 (by decide) (by decide),
   (webhookPost_filter_skips _ _ _).2 (by decide) (by decide) (by decide)⟩

/-- C8: once the signature is verified, the handler responds 200 whatever
the world does — the GraphQL call, the REST GET, the REST PATCH and the
checklist file read may all fail, and the URL may be arbitrary, yet no
failure inside the update step ever changes the response status. -/
theorem webhookPost_verified_always_200 (cfg : Config) (w : World) (req : Request)
    (h : verifySignature cfg.webhookSecret w.hmacHex req.sigHeader req.rawBody = true) :
    (webhookPost cfg w req).status = 200 := by
  by_cases hp : ((req.payload.projects_v2_item.bind fun i => i.project_node_id)
      == some cfg.projectNodeId) = true
  · by_cases ha : (req.payload.action == some "created") = true
    · rcases hc : req.payload.projects_v2_item.bind (fun i => i.content_node_id)
          with _ | cid
      · simp [webhookPost, h, hp, ha, hc]
      · by_cases he : (cid == "") = true
        · simp [webhookPost, h, hp, ha, hc, he]
        · rcases hd : getIssueDetails w.graphql with _ | d
          · simp [webhookPost, h, hp, ha, hc, he, hd]
          · by_cases hu : d.url = ""
            · simp [webhookPost, h, hp, ha, hc, he, hd, hu]
            · simp [webhookPost, h, hp, ha, hc, he, hd, hu]
    · simp [webhookPost, h, hp, ha]
  · simp [webhookPost, h, hp]

/-- C8 witness: a verified request whose update step fails at every point
(GET throws, PATCH throws, checklist file missing) still gets 200. -/
theorem webhookPost_verified_always_200_witness :
    verifySignature "s" (fun _ _ => "aa") (some "sha256=aa") "\x7b\x7d" = true ∧
    (webhookPost { webhookSecret := "s", projectNodeId := "PVT_1" }
      { hmacHex := fun _ _ => "aa",
        graphql := GraphQLResult.response none
          (some { url := "https://github.com/octo/hello/issues/5", body := some "Hi" }),
        restGet := fun _ => Except.error (), restPatch := fun _ _ => Except.error (),
        checklistFile := none }
      { sigHeader := some "sha256=aa", rawBody := "\x7b\x7d",
        payload :=
          { action := some "created",
            projects_v2_item :=
              some { project_node_id := some "PVT_1",
                     content_node_id := some "I_1" } } }).status = 200 :=
  ⟨by decide, webhookPost_verified_always_200 _ _ _ (by decide)⟩

/-- C7: getIssueDetails never raises — it is a total function of the
GraphQL outcome — and: a transport-level failure yields null; a response
with a non-empty errors list yields null; a successful (error-free)
response with no matching node yields null; a successful response with a
matching Issue node yields its url and body. -/
theorem getIssueDetails_spec :
    (getIssueDetails GraphQLResult.transportError = none) ∧
    (∀ (errs : List String) (node : Option IssueNode), errs ≠ [] →
      getIssueDetails (GraphQLResult.response (some errs) node) = none) ∧
    (getIssueDetails (GraphQLResult.response none none) = none) ∧
    (∀ n : IssueNode,
      getIssueDetails (GraphQLResult.response none (some n))
        = some { url := n.url, body := n.body }) := by
  refine ⟨rfl, ?_, rfl, ?_⟩
  · intro errs node _
    simp [getIssueDetails]
  · intro n
    simp [getIssueDetails]

/-- C7 witness: a response carrying one GraphQL error resolves to null. -/
theorem getIssueDetails_spec_witness :
    getIssueDetails (GraphQLResult.response (some ["boom"])
        (some { url := "https://github.com/octo/hello/issues/5", body := some "Hi" }))
      = none :=
  getIssueDetails_spec.2.1 ["boom"] _ (by decide)

/-- C2: when the body the REST GET returns (empty string for null) already
contains the checklist first line as a substring, updateIssueBody makes no
REST PATCH call, leaving the remote body unchanged. -/
theorem updateIssueBody_idempotent (w : World) (issueUrl : String)
    (b : Option String) (c : Checklist)
    (hget : w.restGet (restUrlOf issueUrl) = Except.ok b)
    (hc : readChecklist w.checklistFile = some c)
    (hinc : includes (b.getD "") c.firstLine = true) :
    (updateIssueBody w issueUrl).all (fun call => ! call.isPatch) = true := by
  simp [updateIssueBody, hget, hc, hinc, ApiCall.isPatch]

/-- C2 witness: a body that already holds the checklist first line leads to
a PATCH-free trace. -/
theorem updateIssueBody_idempotent_witness :
    includes "Hello\n\n## Checklist\n- [ ] Step 1" "## Checklist" = true ∧
    (updateIssueBody
      { hmacHex := fun _ _ => "aa", graphql := GraphQLResult.transportError,
        restGet := fun _ => Except.ok (some "Hello\n\n## Checklist\n- [ ] Step 1"),
        restPatch := fun _ _ => Except.ok (),
        checklistFile := some "## Checklist\n- [ ] Step 1" }
      "https://github.com/octo/hello/issues/5").all (fun call => ! call.isPatch)
      = true :=
  ⟨by decide, updateIssueBody_idempotent _ _
    (some "Hello\n\n## Checklist\n- [ ] Step 1")
    { firstLine := "## Checklist", fullContent := "## Checklist\n- [ ] Step 1" }
    rfl (by decide) (by decide)⟩

/-- C3 counterexample: a verified request with matching project, action
"created", and content_node_id present but equal to the empty string — in a
world that would resolve it to an issue with body "Hello", lacking the
checklist first line, with the GET and PATCH ready to succeed — produces no
outbound call at all: the empty string is falsy in JavaScript, so the
handler skips the lookup, and in particular no REST PATCH is issued. -/
theorem webhookPost_empty_content_id_counterexample :
    verifySignature "s" (fun _ _ => "aa") (some "sha256=aa") "\x7b\x7d" = true ∧
    webhookPost { webhookSecret := "s", projectNodeId := "PVT_1" }
      { hmacHex := fun _ _ => "aa",
        graphql := GraphQLResult.response none
          (some { url := "https://github.com/octo/hello/issues/5", body := some "Hello" }),
        restGet := fun _ => Except.ok (some "Hello"),
        restPatch := fun _ _ => Except.ok (),
        checklistFile := some "## Checklist\n- [ ] Step 1" }
      { sigHeader := some "sha256=aa", rawBody := "\x7b\x7d",
        payload :=
          { action := some "created",
            projects_v2_item :=
              some { project_node_id := some "PVT_1",
                     content_node_id := some "" } } }
      = { status := 200, message := "Webhook received and processed!", calls := [] } :=
  ⟨by decide, by decide⟩

/-- C3 amended: a verified request with matching project, action "created",
and a non-empty content node id resolving to an issue (non-empty url, no
GraphQL errors) whose fetched body does not contain the checklist first
line makes the handler issue exactly one REST PATCH, whose body is the
existing body (empty string for null), two newline characters, then the
full checklist content. -/
theorem webhookPost_appends_checklist (cfg : Config) (w : World) (req : Request)
    (cid u : String) (nbody b : Option String) (c : Checklist)
    (hsig : verifySignature cfg.webhookSecret w.hmacHex req.sigHeader req.rawBody = true)
    (hproj : req.payload.projects_v2_item.bind (fun i => i.project_node_id)
      = some cfg.projectNodeId)
    (hact : req.payload.action = some "created")
    (hcid : req.payload.projects_v2_item.bind (fun i => i.content_node_id) = some cid)
    (hcidne : cid ≠ "")
    (hgraph : w.graphql = GraphQLResult.response none (some { url := u, body := nbody }))
    (hu : u ≠ "")
    (hget : w.restGet (restUrlOf u) = Except.ok b)
    (hc : readChecklist w.checklistFile = some c)
    (hninc : includes (b.getD "") c.firstLine = false) :
    (webhookPost cfg w req).calls.filter ApiCall.isPatch
      = [ApiCall.restPatch (restUrlOf u) ((b.getD "") ++ "\n\n" ++ c.fullContent)] := by
  have hcalls : updateIssueBody w u
      = [ApiCall.restGet (restUrlOf u),
         ApiCall.restPatch (restUrlOf u) ((b.getD "") ++ "\n\n" ++ c.fullContent)] := by
    simp [updateIssueBody, hget, hc, hninc]
  simp [webhookPost, hsig, hproj, hact, hcid, beq_eq_false_iff_ne.mpr hcidne,
    getIssueDetails, hgraph, hu, hcalls, List.filter, ApiCall.isPatch]

/-- C3 witness: existing body "Hello" and checklist
"## Checklist\n- [ ] Step 1" produce one PATCH whose body is
"Hello\n\n## Checklist\n- [ ] Step 1". -/
theorem webhookPost_appends_checklist_witness :
    (webhookPost { webhookSecret := "s", projectNodeId := "PVT_1" }
      { hmacHex := fun _ _ => "aa",
        graphql := GraphQLResult.response none
          (some { url := "https://github.com/octo/hello/issues/5", body := some "Hello" }),
        restGet := fun _ => Except.ok (some "Hello"),
        restPatch := fun _ _ => Except.ok (),
        checklistFile := some "## Checklist\n- [ ] Step 1" }
      { sigHeader := some "sha256=aa", rawBody := "\x7b\x7d",
        payload :=
          { action := some "created",
            projects_v2_item :=
              some { project_node_id := some "PVT_1",
                     content_node_id := some "I_1" } } }).calls.filter ApiCall.isPatch
      = [ApiCall.restPatch "https://api.github.com/repos/octo/hello/issues/5"
          "Hello\n\n## Checklist\n- [ ] Step 1"] :=
  webhookPost_appends_checklist _ _ _ "I_1" "https://github.com/octo/hello/issues/5"
    (some "Hello") (some "Hello")
    { firstLine := "## Checklist", fullContent := "## Checklist\n- [ ] Step 1" }
    (by decide) rfl rfl rfl (by decide) rfl (by decide) rfl (by decide) (by decide)

/-- C9: when the checklist file read succeeds but its first line is the
empty string (empty file, or file starting with a newline), the substring
check holds for every existing body, so updateIssueBody never issues a
PATCH whatever the world and URL are. -/
theorem updateIssueBody_empty_first_line_never_patches (w : World)
    (issueUrl : String) (c : Checklist)
    (hc : readChecklist w.checklistFile = some c) (hfl : c.firstLine = "") :
    (updateIssueBody w issueUrl).all (fun call => ! call.isPatch) = true := by
  rcases hg : w.restGet (restUrlOf issueUrl) with e | bodyField
  · simp [updateIssueBody, hg, ApiCall.isPatch]
  · have hinc : includes (bodyField.getD "") c.firstLine = true := by
      rw [hfl]
      exact includes_empty _
    simp [updateIssueBody, hg, hc, hinc, ApiCall.isPatch]

/-- C9 witness: an empty checklist file yields first line "", and the
update of an issue whose body is unrelated text stays PATCH-free. -/
theorem updateIssueBody_empty_first_line_never_patches_witness :
    readChecklist (some "") = some { firstLine := "", fullContent := "" } ∧
    (updateIssueBody
      { hmacHex := fun _ _ => "aa", graphql := GraphQLResult.transportError,
        restGet := fun _ => Except.ok (some "Totally unrelated body"),
        restPatch := fun _ _ => Except.ok (), checklistFile := some "" }
      "https://github.com/octo/hello/issues/5").all (fun call => ! call.isPatch)
      = true :=
  ⟨by decide, updateIssueBody_empty_first_line_never_patches _ _
    { firstLine := "", fullContent := "" } (by decide) rfl⟩

/-- C4 counterexample: on an issueUrl of the claimed API shape
https://api.github.com/repos/octo/hello/issues/5, the fixed positions 3, 4
and 6 pick out "repos", "octo" and "issues", so the REST GET goes to
https://api.github.com/repos/repos/octo/issues/issues — not to the URL the
claim asserts. -/
theorem updateIssueBody_api_shape_counterexample :
    updateIssueBody
      { hmacHex := fun _ _ => "aa", graphql := GraphQLResult.transportError,
        restGet := fun _ => Except.error (), restPatch := fun _ _ => Except.ok (),
        checklistFile := none }
      "https://api.github.com/repos/octo/hello/issues/5"
      = [ApiCall.restGet "https://api.github.com/repos/repos/octo/issues/issues"] ∧
    ("https://api.github.com/repos/repos/octo/issues/issues" : String)
      ≠ "https://api.github.com/repos/octo/hello/issues/5" :=
  ⟨by decide, by decide⟩

/-- C4 amended: for every issueUrl of the web shape
https://github.com/owner/repo/issues/number with slash-free owner, repo and
number, updateIssueBody extracts them from slash positions 3, 4 and 6 and
directs every REST call it makes (GET and PATCH alike) at
https://api.github.com/repos/owner/repo/issues/number. -/
theorem updateIssueBody_web_url_targets (w : World) (owner repo num : String)
    (ho : ('/' : Char) ∉ owner.data) (hr : ('/' : Char) ∉ repo.data)
    (hn : ('/' : Char) ∉ num.data) :
    (updateIssueBody w
        ("https://github.com/" ++ owner ++ "/" ++ repo ++ "/issues/" ++ num)).all
      (fun call => call.url
        == "https://api.github.com/repos/" ++ owner ++ "/" ++ repo ++ "/issues/" ++ num)
      = true := by
  rw [List.all_eq_true]
  intro c hcmem
  have h1 := updateIssueBody_calls_url w _ c hcmem
  rw [h1, restUrlOf_web owner repo num ho hr hn]
  exact beq_self_eq_true _

/-- C4 amended witness: a run that performs both the GET and the PATCH
directs both at https://api.github.com/repos/octo/hello/issues/5. -/
theorem updateIssueBody_web_url_targets_witness :
    (updateIssueBody
      { hmacHex := fun _ _ => "aa", graphql := GraphQLResult.transportError,
        restGet := fun _ => Except.ok (some "Hello"),
        restPatch := fun _ _ => Except.ok (),
        checklistFile := some "## Checklist\n- [ ] Step 1" }
      ("https://github.com/" ++ "octo" ++ "/" ++ "hello" ++ "/issues/" ++ "5")).all
      (fun call => call.url
        == "https://api.github.com/repos/" ++ "octo" ++ "/" ++ "hello"
            ++ "/issues/" ++ "5")
      = true :=
  updateIssueBody_web_url_targets _ "octo" "hello" "5"
    (by decide) (by decide) (by decide)

end WebhookListener
